import Mathlib

/-!
Shallow embedding of the session/request layer and the PTZ/zone
normalizers of the reolink-api TypeScript client, together with proofs
of the behavioural properties stated about them.

The embedding models:
  * `src/reolink.ts` — `ReolinkClient`: `apiInternal`, `login`,
    `ensureToken`, `withToken`, `apiInternalMany`, `withTokenMany`,
    `requestMany`, `logout`, `close`;
  * `src/ptz.ts` — `getPtzGuard`, `setPtzPatrol` (format detection and
    conversion pipeline);
  * the `PresetsModule` — `setGuard`, `buildScope`, `setMdZone`,
    `setAiZone`, `getGuard`;
  * `src/events.ts` — `ReolinkEventEmitter.stop`.

Network I/O is modelled by an oracle (`Net`) giving the HTTP reply for
the k-th single call, the k-th batched call and the k-th login call.
The client state carries ghost instrumentation (chronological logs of
sent requests, login and logout invocation counters) so that theorems
can speak about which requests were issued and how often.
-/

namespace Reolink

/-- Free-form JSON parameter object, abstracted as a key/value list. -/
abbrev Param := List (String × String)

/-- Payload of a successful response envelope, abstracted. -/
abbrev RespVal := String

/-- The `ReolinkHttpError` of `src/types.ts`: HTTP-or-envelope code,
vendor response code, human-readable detail, originating command. -/
structure ReolinkHttpError where
  code : Int
  rspCode : Int
  detail : String
  command : Option String
deriving DecidableEq

/-- Errors a call can surface: a `ReolinkHttpError` or a generic
`Error` (e.g. `new Error("Client is closed")`). -/
inductive CallErr where
  | http (e : ReolinkHttpError)
  | plain (msg : String)
deriving DecidableEq

/-- One response envelope: `code == 0` carries a value, otherwise an
`error` object with `rspCode` and `detail`. -/
inductive REnvelope (α : Type) where
  | success (value : α)
  | failure (code : Int) (rspCode : Int) (detail : String)
deriving DecidableEq

/-- Outcome of one HTTP round trip: transport-level failure
(`!response.ok`, carrying the status) or a parsed JSON body. -/
inductive HttpReply (α : Type) where
  | fail (status : Int)
  | ok (body : α)
deriving DecidableEq

/-- `value.Token` of a login response: token name and optional lease. -/
structure TokenVal where
  name : String
  leaseTime : Option Int
deriving DecidableEq

/-- Authentication material embedded in the query string of a request:
either explicit credentials (short mode) or the session token. -/
inductive AuthQ where
  | creds (user : String) (pass : String)
  | tok (t : String)
deriving DecidableEq

/-- A fully-populated command envelope `{cmd, action, param}`. -/
structure Envelope where
  cmd : String
  action : Nat
  param : Param
deriving DecidableEq

/-- A request as accepted by `requestMany`: `action`/`param` optional. -/
structure RawEnv where
  cmd : String
  action : Option Nat
  param : Option Param
deriving DecidableEq

/-- `requestMany`'s normalization: `action ?? 0`, `param ?? {}`. -/
def normEnv (r : RawEnv) : Envelope :=
  { cmd := r.cmd, action := r.action.getD 0, param := r.param.getD [] }

/-- Ghost record of one single-envelope HTTP request that was sent. -/
structure SentSingle where
  cmd : String
  action : Nat
  param : Param
  auth : AuthQ
deriving DecidableEq

/-- Ghost record of one batched HTTP request that was sent. -/
structure SentBatch where
  envs : List Envelope
  auth : AuthQ
deriving DecidableEq

/-- State of one `ReolinkEventEmitter`: whether polling is running,
whether an interval timer is registered, number of listeners. -/
structure Emitter where
  isRunning : Bool
  hasTimer : Bool
  listeners : Nat
deriving DecidableEq

/-- `ReolinkEventEmitter.stop`: no-op when not running, otherwise stop
polling, clear the timer and remove all listeners. -/
def Emitter.stop (e : Emitter) : Emitter :=
  if e.isRunning then
    { isRunning := false, hasTimer := false, listeners := 0 }
  else e

/-- Connection mode: `"long"` (token session) or `"short"`
(credentials embedded per request). -/
inductive Mode where
  | long
  | short
deriving DecidableEq

/-- State of a `ReolinkClient`, plus ghost instrumentation: the
chronological logs of sent single requests and sent batches, and the
number of login HTTP calls and of `logout()` invocations. Emitters
live in a heap (`emHeap`); the client's `eventEmitters` set is the
list of heap indices in `registered`. -/
structure CState where
  mode : Mode
  username : String
  password : String
  token : String
  tokenLeaseTime : Int
  tokenExpiryTime : Int
  closed : Bool
  emHeap : List Emitter
  registered : List Nat
  sends : List SentSingle
  sendsMany : List SentBatch
  logins : Nat
  logoutCalls : Nat
deriving DecidableEq

/-- The device/transport oracle: replies for the k-th single call, the
k-th batched call and the k-th login call. -/
structure Net where
  call : Nat → HttpReply (REnvelope RespVal)
  callMany : Nat → HttpReply (List (REnvelope RespVal))
  loginCall : Nat → HttpReply (REnvelope TokenVal)

/-- True when `pat` occurs as a substring of `s` (JS `includes`). -/
def strContains (s pat : String) : Bool :=
  (s.splitOn pat).length != 1

/-- The auth-failure classifier of `withToken`/`withTokenMany`:
HTTP/envelope code 401, vendor `rspCode` -1, or the lowercased detail
containing `"token"` or `"session"`. -/
def isTokenError (e : ReolinkHttpError) : Bool :=
  e.code == 401 || e.rspCode == -1 ||
    strContains e.detail.toLower "token" ||
    strContains e.detail.toLower "session"

/-- What `apiInternal` makes of one HTTP reply for command `cmd`:
transport failure and nonzero-code envelopes become
`ReolinkHttpError`s, a zero-code envelope yields its value. -/
def callOutcome (r : HttpReply (REnvelope RespVal)) (cmd : String) :
    Except ReolinkHttpError RespVal :=
  match r with
  | .fail status =>
      .error ⟨status, status, "HTTP error! status: " ++ toString status, some cmd⟩
  | .ok (.success v) => .ok v
  | .ok (.failure code rsp detail) => .error ⟨code, rsp, detail, some cmd⟩

/-- What `apiInternalMany` makes of one HTTP reply: only transport
failures raise; the body's envelope list is returned unchecked. -/
def callManyOutcome (r : HttpReply (List (REnvelope RespVal))) (cmd : String) :
    Except ReolinkHttpError (List (REnvelope RespVal)) :=
  match r with
  | .fail status =>
      .error ⟨status, status, "HTTP error! status: " ++ toString status, some cmd⟩
  | .ok data => .ok data

/-- The token-staleness test of `ensureToken`: token is the `"null"`
sentinel, or `Date.now() >= tokenExpiryTime - 60000`. -/
def needsRefresh (token : String) (expiry now : Int) : Prop :=
  token = "null" ∨ expiry - 60000 ≤ now

instance (token : String) (expiry now : Int) :
    Decidable (needsRefresh token expiry now) :=
  inferInstanceAs (Decidable (_ ∨ _))

/-- `ReolinkClient.login`: its own fetch (not via `apiInternal`); on a
zero-code envelope stores the token, the lease (default 3600) and
`expiry = now + lease * 1000`, returning the token name. -/
def login (net : Net) (now : Int) (st : CState) :
    Except CallErr String × CState :=
  let idx := st.logins
  let st1 := { st with logins := st.logins + 1 }
  match net.loginCall idx with
  | .fail status =>
      (.error (.http ⟨status, status,
        "HTTP error! status: " ++ toString status, some "Login"⟩), st1)
  | .ok (.failure code rsp detail) =>
      (.error (.http ⟨code, rsp, detail, some "Login"⟩), st1)
  | .ok (.success tv) =>
      let lease := tv.leaseTime.getD 3600
      (.ok tv.name,
        { st1 with token := tv.name, tokenLeaseTime := lease,
                   tokenExpiryTime := now + lease * 1000 })

/-- `ReolinkClient.ensureToken`: refresh via `login` when the token is
the sentinel or expires within 60 seconds. -/
def ensureToken (net : Net) (now : Int) (st : CState) :
    Except CallErr Unit × CState :=
  if needsRefresh st.token st.tokenExpiryTime now then
    match login net now st with
    | (.ok _, st1) => (.ok (), st1)
    | (.error e, st1) => (.error e, st1)
  else (.ok (), st)

/-- `ReolinkClient.apiInternal`: build the query auth from the mode,
send the single envelope, classify the reply. The sent request is
recorded in the ghost `sends` log. -/
def apiInternal (net : Net) (cmd : String) (action : Nat) (param : Param)
    (st : CState) : Except CallErr RespVal × CState :=
  let auth := match st.mode with
    | .short => AuthQ.creds st.username st.password
    | .long => AuthQ.tok st.token
  let idx := st.sends.length
  let st1 := { st with sends := st.sends ++ [⟨cmd, action, param, auth⟩] }
  match callOutcome (net.call idx) cmd with
  | .ok v => (.ok v, st1)
  | .error e => (.error (.http e), st1)

/-- `ReolinkClient.withToken` with explicit remaining-retry budget
(the source counts attempts upward and retries only while
`retryCount == 0`; counting the remaining retries downward from 1 is
the same control flow in structural-recursion form). -/
def withTokenGo (net : Net) (now : Int) (cmd : String) (action : Nat)
    (param : Param) : Nat → CState → Except CallErr RespVal × CState
  | retriesLeft, st =>
    if st.closed then (.error (.plain "Client is closed"), st)
    else
      match st.mode with
      | .short => apiInternal net cmd action param st
      | .long =>
        match ensureToken net now st with
        | (.error e, st1) => (.error e, st1)
        | (.ok _, st1) =>
          match apiInternal net cmd action param st1 with
          | (.ok v, st2) => (.ok v, st2)
          | (.error (.plain msg), st2) => (.error (.plain msg), st2)
          | (.error (.http e), st2) =>
            if isTokenError e then
              match retriesLeft with
              | r + 1 =>
                  withTokenGo net now cmd action param r
                    { st2 with token := "null", tokenExpiryTime := 0 }
              | 0 => (.error (.http e), st2)
            else (.error (.http e), st2)

/-- `ReolinkClient.withToken` as called by `api`: one retry allowed. -/
def withToken (net : Net) (now : Int) (cmd : String) (action : Nat)
    (param : Param) (st : CState) : Except CallErr RespVal × CState :=
  withTokenGo net now cmd action param 1 st

/-- `ReolinkClient.apiInternalMany`: empty batches return `[]` without
any HTTP call; otherwise the whole envelope list is sent as one body
(the query string names the first command, or `"Batch"`), only
transport failures raise, and the response list is returned unchecked.
The sent batch is recorded in the ghost `sendsMany` log. -/
def apiInternalMany (net : Net) (reqs : List Envelope) (st : CState) :
    Except CallErr (List (REnvelope RespVal)) × CState :=
  if reqs.isEmpty then (.ok [], st)
  else
    let commandForQuery := (reqs.head?.map (fun r => r.cmd)).getD "Batch"
    let auth := match st.mode with
      | .short => AuthQ.creds st.username st.password
      | .long => AuthQ.tok st.token
    let idx := st.sendsMany.length
    let st1 := { st with sendsMany := st.sendsMany ++ [⟨reqs, auth⟩] }
    match callManyOutcome (net.callMany idx) commandForQuery with
    | .ok data => (.ok data, st1)
    | .error e => (.error (.http e), st1)

/-- `ReolinkClient.withTokenMany` with explicit remaining-retry budget
(same downward-counting rendering of `retryCount` as `withTokenGo`).
Its input envelopes are already fully populated, so the source's
re-normalization (`action ?? 0`, `param ?? {}`) is the identity. -/
def withTokenManyGo (net : Net) (now : Int) (reqs : List Envelope) :
    Nat → CState → Except CallErr (List (REnvelope RespVal)) × CState
  | retriesLeft, st =>
    if st.closed then (.error (.plain "Client is closed"), st)
    else
      match st.mode with
      | .short => apiInternalMany net reqs st
      | .long =>
        match ensureToken net now st with
        | (.error e, st1) => (.error e, st1)
        | (.ok _, st1) =>
          match apiInternalMany net reqs st1 with
          | (.ok data, st2) => (.ok data, st2)
          | (.error (.plain msg), st2) => (.error (.plain msg), st2)
          | (.error (.http e), st2) =>
            if isTokenError e then
              match retriesLeft with
              | r + 1 =>
                  withTokenManyGo net now reqs r
                    { st2 with token := "null", tokenExpiryTime := 0 }
              | 0 => (.error (.http e), st2)
            else (.error (.http e), st2)

/-- `ReolinkClient.withTokenMany` as called by `requestMany`. -/
def withTokenMany (net : Net) (now : Int) (reqs : List Envelope)
    (st : CState) : Except CallErr (List (REnvelope RespVal)) × CState :=
  withTokenManyGo net now reqs 1 st

/-- The response-mapping step of `requestMany`: unwrap values in order
and raise a `ReolinkHttpError` at the first nonzero-code envelope,
naming the command of the request at the same index. -/
def mapBatch (reqs : List Envelope) :
    List (REnvelope RespVal) → Nat → Except CallErr (List RespVal)
  | [], _ => .ok []
  | .success v :: rest, i =>
      match mapBatch reqs rest (i + 1) with
      | .ok vs => .ok (v :: vs)
      | .error e => .error e
  | .failure code rsp detail :: _, i =>
      .error (.http ⟨code, rsp, detail, (reqs.get? i).map (fun r => r.cmd)⟩)

/-- `ReolinkClient.requestMany`: short-circuit empty input, normalize,
send via `withTokenMany`, then unwrap each envelope. -/
def requestMany (net : Net) (now : Int) (raws : List RawEnv) (st : CState) :
    Except CallErr (List RespVal) × CState :=
  if raws.isEmpty then (.ok [], st)
  else
    let normalized := raws.map normEnv
    match withTokenMany net now normalized st with
    | (.error e, st1) => (.error e, st1)
    | (.ok resps, st1) => (mapBatch normalized resps 0, st1)

/-- `ReolinkClient.logout`: no-op when the token is `"null"`/empty or
the client is closed; otherwise send `Logout` (outcome ignored) and in
all cases of the send clear the token state. The ghost `logoutCalls`
counter records each invocation of the method. -/
def logout (net : Net) (st : CState) : CState :=
  let st0 := { st with logoutCalls := st.logoutCalls + 1 }
  if st0.token = "null" ∨ st0.token = "" ∨ st0.closed then st0
  else
    let st1 := (apiInternal net "Logout" 0 [] st0).2
    { st1 with token := "null", tokenExpiryTime := 0 }

/-- Stop every emitter of the heap whose index is registered, keeping
the rest untouched; `i` is the index of the head of the list. -/
def stopAll (reg : List Nat) : Nat → List Emitter → List Emitter
  | _, [] => []
  | i, e :: es => (if i ∈ reg then e.stop else e) :: stopAll reg (i + 1) es

/-- `ReolinkClient.close`: early-return when already closed; otherwise
mark closed, stop all registered emitters, clear the emitter set, then
call `logout`. -/
def close (net : Net) (st : CState) : CState :=
  if st.closed then st
  else
    let st1 := { st with closed := true }
    let st2 := { st1 with emHeap := stopAll st1.registered 0 st1.emHeap,
                          registered := [] }
    logout net st2

/-! ### PTZ patrol format detection (`setPtzPatrol`, src/ptz.ts) -/

/-- A duck-typed patrol waypoint as seen at runtime: any subset of the
keys `id`/`speed`/`dwellTime` (native shape) and
`presetId`/`speed`/`stayTime` (legacy point shape) may be present. -/
structure PatrolEntry where
  id : Option Int
  speed : Option Int
  dwellTime : Option Int
  presetId : Option Int
  stayTime : Option Int
deriving DecidableEq

/-- A value that is `number | boolean` in the source. -/
inductive BoolNum where
  | bool (b : Bool)
  | num (n : Int)
deriving DecidableEq

/-- The source's coercion `typeof enable === "boolean" ? (enable ? 1 : 0)
: enable as number`. -/
def coerceEnable : BoolNum → Int
  | .bool b => if b then 1 else 0
  | .num n => n

/-- A duck-typed `setPtzPatrol` input (`PtzPatrolConfig | PtzPatrol`):
`Option` fields model JS key presence (`"k" in config`). An absent
array field covers both a missing key and a non-array value, since the
source always conjoins presence with `Array.isArray`. -/
structure PatrolInput where
  channel : Option Int
  enable : BoolNum
  id : Option Int
  name : Option String
  preset : Option (List PatrolEntry)
  points : Option (List PatrolEntry)
  path : Option (List PatrolEntry)
deriving DecidableEq

/-- The canonical patrol body the native/converted branches send under
the `PtzPatrol` key. -/
structure PatrolOut where
  channel : Int
  id : Int
  enable : Int
  preset : List PatrolEntry
deriving DecidableEq

/-- Which branch of `setPtzPatrol`'s detection pipeline fired. -/
inductive PatrolBranch where
  | rlc        -- native preset shape, no name
  | withName   -- preset plus name, spread through
  | points     -- legacy points conversion
  | path       -- legacy path conversion
  | generic    -- fallback spread-through
deriving DecidableEq

/-- The outgoing `SetPtzPatrol` request body: either
`{channel, PtzPatrol: cfg}` or the spread-through legacy payload
`{...config, channel}` with boolean `enable` coerced. -/
inductive PatrolSend where
  | wrapped (channel : Int) (cfg : PatrolOut)
  | spread (payload : PatrolInput)
deriving DecidableEq

/-- Conversion of one legacy point:
`{id: p.presetId, speed: p.speed, dwellTime: p.stayTime}`. -/
def convPoint (p : PatrolEntry) : PatrolEntry :=
  { id := p.presetId, speed := p.speed, dwellTime := p.stayTime,
    presetId := none, stayTime := none }

/-- `hasPresetArray`: key present, array, and nonempty. -/
def hasPresetArray (c : PatrolInput) : Bool :=
  match c.preset with
  | some ps => decide (0 < ps.length)
  | none => false

/-- The first-preset structure check of the native branch:
`"id" in p && "speed" in p && "dwellTime" in p`. -/
def rlcShape (p : PatrolEntry) : Bool :=
  p.id.isSome && p.speed.isSome && p.dwellTime.isSome

/-- Branches 2–5 of `setPtzPatrol` (everything after the native-shape
check falls through here). -/
def setPtzPatrolRest (channel : Int) (c : PatrolInput) :
    PatrolBranch × PatrolSend :=
  if hasPresetArray c && c.name.isSome then
    (.withName, .spread { c with channel := some channel,
                                 enable := .num (coerceEnable c.enable) })
  else if c.points.isSome && c.id.isSome then
    (.points, .wrapped channel
      { channel := channel, id := c.id.getD 0,
        enable := coerceEnable c.enable,
        preset := (c.points.getD []).map convPoint })
  else if c.path.isSome then
    (.path, .wrapped channel
      { channel := channel, id := c.id.getD 0,
        enable := coerceEnable c.enable,
        preset := (c.path.getD []).map convPoint })
  else
    (.generic, .spread { c with channel := some channel,
                                enable := .num (coerceEnable c.enable) })

/-- The format-detection and conversion pipeline of `setPtzPatrol`:
which branch fires and what `SetPtzPatrol` request body it sends.
The uniform response/error-mapping tail of the source (shared by every
branch) is orthogonal to format detection and is not modelled. -/
def setPtzPatrol (channel : Int) (c : PatrolInput) :
    PatrolBranch × PatrolSend :=
  if hasPresetArray c && !c.name.isSome && c.id.isSome then
    match c.preset with
    | some (p :: ps) =>
        if rlcShape p then
          (.rlc, .wrapped channel
            { channel := c.channel.getD channel, id := c.id.getD 0,
              enable := coerceEnable c.enable, preset := p :: ps })
        else setPtzPatrolRest channel c
    | _ => setPtzPatrolRest channel c
  else setPtzPatrolRest channel c

/-! ### PTZ guard (`getPtzGuard` of src/ptz.ts, `PresetsModule.setGuard`
and `PresetsModule.getGuard`) -/

/-- A duck-typed `PtzGuard` object as delivered by the device: every
field may be absent. -/
structure GuardWire where
  benable : Option Int
  bexistPos : Option Int
  bExistPosAlt : Option Int
  timeout : Option Int
  channel : Option Int
deriving DecidableEq

/-- The value `getPtzGuard` returns: the source's `PtzGuardConfig`
with fields that can be `undefined` at runtime modelled as `Option`. -/
structure GuardOut where
  benable : Option Int
  bexistPos : Option Int
  timeout : Option Int
  channel : Option Int
deriving DecidableEq

/-- `getPtzGuard` (src/ptz.ts): copy the fields of `response.PtzGuard`
when that key is present (defaulting only `channel`); otherwise return
the default `{benable: 0, timeout: 60, channel}`. -/
def getPtzGuard (resp : Option GuardWire) (channel : Int) : GuardOut :=
  match resp with
  | some g =>
      { benable := g.benable, bexistPos := g.bexistPos,
        timeout := g.timeout, channel := some (g.channel.getD channel) }
  | none =>
      { benable := some 0, bexistPos := none,
        timeout := some 60, channel := some channel }

/-- `PresetsModule.getGuard`: reads `response?.PtzGuard ?? response`
and coerces missing numeric fields to 0 (`Number(x ?? 0)`). -/
def presetsGetGuard (guard : GuardWire) :
    Int × Int × Int :=
  (guard.benable.getD 0,
   (guard.bexistPos.getD (guard.bExistPosAlt.getD 0)),
   guard.timeout.getD 0)

/-- The options accepted by `PresetsModule.setGuard`. -/
structure GuardOptions where
  enable : Option Bool
  timeoutSec : Option Int
  setCurrentAsGuard : Option Bool
  goToGuardNow : Option Bool
deriving DecidableEq

/-- The `PtzGuard` body `PresetsModule.setGuard` sends. -/
structure GuardPayload where
  channel : Int
  benable : Option Int
  bexistPos : Option Int
  timeout : Int
  cmdStr : String
  bSaveCurrentPos : Int
deriving DecidableEq

/-- JS truthiness of an optional boolean option. -/
def truthy (o : Option Bool) : Bool := o.getD false

/-- `PresetsModule.setGuard`: reject any timeout other than the fixed
constant 60 with a local `Error` before the request is built;
otherwise return the `SetPtzGuard` body that is sent. -/
def setGuard (channel : Int) (o : GuardOptions) :
    Except String GuardPayload :=
  let timeout := o.timeoutSec.getD 60
  if timeout ≠ 60 then
    .error "Reolink guard timeout currently supports only 60 seconds"
  else
    .ok { channel := channel,
          benable := o.enable.map (fun b => if b then 1 else 0),
          bexistPos := if truthy o.setCurrentAsGuard then some 1 else none,
          timeout := timeout,
          cmdStr := if truthy o.goToGuardNow then "toPos" else "setPos",
          bSaveCurrentPos := if truthy o.setCurrentAsGuard then 1 else 0 }

/-! ### Motion / AI detection grids (`PresetsModule`) -/

/-- A Grid Area: width, height and the flat row-major bit-string. -/
structure GridArea where
  width : Nat
  height : Nat
  bits : String
deriving DecidableEq

/-- The scope object `buildScope` produces. -/
structure ScopeOut where
  width : Nat
  height : Nat
  cols : Nat
  rows : Nat
  table : String
deriving DecidableEq

/-- `buildScope`: reject a bit-string whose length differs from
`width * height`, otherwise build the wire scope object. -/
def buildScope (a : GridArea) : Except String ScopeOut :=
  if a.bits.length ≠ a.width * a.height then
    .error "Grid area bitstring size mismatch"
  else
    .ok { width := a.width, height := a.height,
          cols := a.width, rows := a.height, table := a.bits }

/-- Current motion-alarm configuration fetched by `setMdZone`, duck:
the extra fields beyond the zone (sensitivity etc.) and the extra keys
of its old `scope` object are abstracted as opaque key/value lists. -/
structure MdWire where
  scopeExtras : Option Param
  rest : Param
deriving DecidableEq

/-- Outcome of `setMdZone`'s pre-fetch of `GetMdAlarm`: a successful
response (whose `MdAlarm ?? response` view may or may not be a usable
object), a structured device error, or a non-device failure. -/
inductive MdFetch where
  | ok (mdAlarm : Option MdWire)
  | httpErr (e : ReolinkHttpError)
  | otherErr
deriving DecidableEq

/-- The `SetMdAlarm` body `setMdZone` sends: merged with the fetched
current config when one was usable, else the minimal payload. -/
structure MdPayload where
  fromCurrent : Option MdWire
  channel : Int
  scope : ScopeOut
  scopeExtras : Param
  table : String
deriving DecidableEq

/-- A network request `setMdZone` makes, in order. -/
inductive MdReq where
  | getMdAlarm (channel : Int)
  | setMdAlarm (payload : MdPayload)
deriving DecidableEq

/-- An error raised by `setMdZone`: the local validation `Error` from
`buildScope`, or a rethrown structured device error. -/
inductive MdErr where
  | localErr (msg : String)
  | httpErr (e : ReolinkHttpError)
deriving DecidableEq

/-- `PresetsModule.setMdZone`: validate via `buildScope` first (a
local error means no request at all), then fetch the current config
(best-effort: structured device errors rethrow, other failures fall
back to the minimal payload) and send `SetMdAlarm`. Returns the
chronological request list together with the outcome. -/
def setMdZone (fetch : MdFetch) (channel : Int) (a : GridArea) :
    List MdReq × Except MdErr Unit :=
  match buildScope a with
  | .error msg => ([], .error (.localErr msg))
  | .ok scope =>
    match fetch with
    | .httpErr e => ([.getMdAlarm channel], .error (.httpErr e))
    | .otherErr =>
        ([.getMdAlarm channel,
          .setMdAlarm { fromCurrent := none, channel := channel,
                        scope := scope, scopeExtras := [],
                        table := a.bits }], .ok ())
    | .ok mdAlarm =>
      match mdAlarm with
      | some md =>
          ([.getMdAlarm channel,
            .setMdAlarm { fromCurrent := some md, channel := channel,
                          scope := scope,
                          scopeExtras := md.scopeExtras.getD [],
                          table := a.bits }], .ok ())
      | none =>
          ([.getMdAlarm channel,
            .setMdAlarm { fromCurrent := none, channel := channel,
                          scope := scope, scopeExtras := [],
                          table := a.bits }], .ok ())

/-- The fixed AI-type enumeration of `PresetsModule`. -/
def supportedAiTypes : List String := ["people", "vehicle", "dog_cat", "face"]

/-- The `SetAlarmArea` body `setAiZone` sends. -/
structure AiPayload where
  channel : Int
  aiType : String
  width : Nat
  height : Nat
  area : String
deriving DecidableEq

/-- `PresetsModule.setAiZone`: reject unknown AI types, then reject a
bit-string whose length differs from `width * height`; both checks
happen before the request is built (an error means no network call). -/
def setAiZone (channel : Int) (aiType : String) (a : GridArea) :
    Except String AiPayload :=
  if ¬ supportedAiTypes.contains aiType then
    .error ("Unsupported AI type: " ++ aiType)
  else if a.bits.length ≠ a.width * a.height then
    .error "Invalid AI zone bitstring length"
  else
    .ok { channel := channel, aiType := aiType,
          width := a.width, height := a.height, area := a.bits }

/-! ### Theorems about the patrol format-detection pipeline -/

/-- Concrete `setPtzPatrol` input: a nonempty `preset` array whose
first entry does not match the native `{id, speed, dwellTime}` shape,
no `name`, a top-level `id`, and a legacy `points` array. -/
def cexC4 : PatrolInput :=
  { channel := none, enable := .num 1, id := some 0, name := none,
    preset := some [{ id := some 1, speed := none, dwellTime := none,
                      presetId := none, stayTime := none }],
    points := some [{ id := none, speed := some 3, dwellTime := none,
                      presetId := some 2, stayTime := some 4 }],
    path := none }

/-- C4 counterexample: an input carrying a (nonempty) `preset` array
resolves via the `points` conversion branch, not via case 1 or 2 —
the pipeline falls through whenever the first preset entry lacks one
of `id`/`speed`/`dwellTime` and no `name` field is present. -/
theorem C4_counterexample :
    cexC4.preset.isSome = true ∧ cexC4.points.isSome = true ∧
    (setPtzPatrol 0 cexC4).1 = PatrolBranch.points := by
  refine ⟨rfl, rfl, ?_⟩
  rfl

/-- C4 (amended): an input whose nonempty `preset` array is in one of
the two recognized preset shapes — a `name` field is present (case 2),
or there is no `name`, a top-level `id` is present and the first
preset entry carries `id`, `speed` and `dwellTime` (case 1) — resolves
via case 1 or case 2 and never falls through to the `points`/`path`
conversion branches, even when `points` or `path` arrays are also
present. -/
theorem C4_preset_priority (channel : Int) (c : PatrolInput)
    (hp : hasPresetArray c = true)
    (hq : c.name.isSome = true ∨
          (c.name = none ∧ c.id.isSome = true ∧
            ∃ p ps, c.preset = some (p :: ps) ∧ rlcShape p = true)) :
    (setPtzPatrol channel c).1 = PatrolBranch.rlc ∨
    (setPtzPatrol channel c).1 = PatrolBranch.withName := by
  rcases hq with hname | ⟨hn, hid, p, ps, hpre, hrlc⟩
  · right
    simp [setPtzPatrol, setPtzPatrolRest, hp, hname]
  · left
    simp [setPtzPatrol, setPtzPatrolRest, hp, hn, hid, hpre, hrlc]

/-- Concrete native-shape-with-points input for the C4 witness. -/
def w4cfg : PatrolInput :=
  { channel := none, enable := .num 1, id := some 2, name := none,
    preset := some [{ id := some 1, speed := some 2, dwellTime := some 3,
                      presetId := none, stayTime := none }],
    points := some [{ id := none, speed := none, dwellTime := none,
                      presetId := some 9, stayTime := some 9 }],
    path := none }

/-- Witness for `C4_preset_priority` at a concrete input. -/
theorem C4_preset_priority_witness :
    (setPtzPatrol 0 w4cfg).1 = PatrolBranch.rlc ∨
    (setPtzPatrol 0 w4cfg).1 = PatrolBranch.withName :=
  C4_preset_priority 0 w4cfg (by decide)
    (Or.inr ⟨rfl, rfl, _, _, rfl, by decide⟩)

/-- Concrete `points`-only config without a top-level `id` field. -/
def cexC5 : PatrolInput :=
  { channel := none, enable := .num 1, id := none, name := none,
    preset := none,
    points := some [{ id := none, speed := some 5, dwellTime := none,
                      presetId := some 1, stayTime := some 3 }],
    path := none }

/-- C5 counterexample: a patrol config given as a `points` array but
without a top-level `id` field is not converted at all — it takes the
generic pass-through branch, whose payload still carries the raw
`points` array and no `preset` array. -/
theorem C5_counterexample :
    cexC5.points.isSome = true ∧
    setPtzPatrol 0 cexC5 =
      (PatrolBranch.generic,
       .spread { cexC5 with channel := some 0, enable := .num 1 }) := by
  exact ⟨rfl, rfl⟩

/-- C5 (amended): a patrol config given as a `points` array converts
(each point to `{id: presetId, speed, dwellTime: stayTime}`, in the
original order, sent as the `preset` array) only when the config also
carries a top-level `id` field; a config given as a `path` array
converts unconditionally (provided the earlier branches do not fire).
Without a top-level `id`, a `points`-only config falls through to the
generic pass-through branch unconverted. -/
theorem C5_points_path_conversion :
    (∀ (channel : Int) (c : PatrolInput) (pts : List PatrolEntry),
      c.points = some pts → c.id.isSome = true → hasPresetArray c = false →
      setPtzPatrol channel c =
        (PatrolBranch.points, .wrapped channel
          { channel := channel, id := c.id.getD 0,
            enable := coerceEnable c.enable,
            preset := pts.map convPoint })) ∧
    (∀ (channel : Int) (c : PatrolInput) (pth : List PatrolEntry),
      c.path = some pth →
      (c.points.isSome = false ∨ c.id.isSome = false) →
      hasPresetArray c = false →
      setPtzPatrol channel c =
        (PatrolBranch.path, .wrapped channel
          { channel := channel, id := c.id.getD 0,
            enable := coerceEnable c.enable,
            preset := pth.map convPoint })) := by
  constructor
  · intro channel c pts hpts hid hp
    simp [setPtzPatrol, setPtzPatrolRest, hp, hpts, hid]
  · intro channel c pth hpth hnp hp
    rcases hnp with hnp | hnp <;>
      simp [setPtzPatrol, setPtzPatrolRest, hp, hpth, hnp]

/-- The spec's own example config `{points: [{presetId:1, speed:5,
stayTime:3}, {presetId:2, speed:4, stayTime:3}]}`, with the top-level
`id` the conversion branch requires. -/
def w5cfg : PatrolInput :=
  { channel := none, enable := .num 1, id := some 0, name := none,
    preset := none,
    points := some
      [{ id := none, speed := some 5, dwellTime := none,
         presetId := some 1, stayTime := some 3 },
       { id := none, speed := some 4, dwellTime := none,
         presetId := some 2, stayTime := some 3 }],
    path := none }

/-- Witness for `C5_points_path_conversion` at the spec's example:
the converted `preset` array is `[{id:1, speed:5, dwellTime:3},
{id:2, speed:4, dwellTime:3}]` in the original order. -/
theorem C5_points_path_conversion_witness :
    setPtzPatrol 0 w5cfg =
      (PatrolBranch.points, .wrapped 0
        { channel := 0, id := 0, enable := 1,
          preset :=
            [{ id := some 1, speed := some 5, dwellTime := some 3,
               presetId := none, stayTime := none },
             { id := some 2, speed := some 4, dwellTime := some 3,
               presetId := none, stayTime := none }] }) := by
  have h := C5_points_path_conversion.1 0 w5cfg
    ((w5cfg.points).getD []) rfl rfl (by decide)
  simpa using h

/-! ### Theorems about guard and grid validation -/

/-- C6: `setGuard` raises a local validation error, before any request
body is even built, for every requested timeout other than the fixed
constant 60; a timeout of 60 or an omitted timeout is accepted and the
sent payload carries `timeout = 60`. -/
theorem C6_guard_timeout :
    (∀ (channel t : Int) (o : GuardOptions),
      o.timeoutSec = some t → t ≠ 60 →
      setGuard channel o =
        .error "Reolink guard timeout currently supports only 60 seconds") ∧
    (∀ (channel : Int) (o : GuardOptions),
      o.timeoutSec = some 60 ∨ o.timeoutSec = none →
      ∃ p, setGuard channel o = .ok p ∧ p.timeout = 60) := by
  constructor
  · intro channel t o ht hne
    simp [setGuard, ht, hne]
  · intro channel o h
    rcases h with h | h <;>
      exact ⟨{ channel := channel,
               benable := o.enable.map (fun b => if b then 1 else 0),
               bexistPos := if truthy o.setCurrentAsGuard then some 1 else none,
               timeout := 60,
               cmdStr := if truthy o.goToGuardNow then "toPos" else "setPos",
               bSaveCurrentPos := if truthy o.setCurrentAsGuard then 1 else 0 },
             by simp [setGuard, h], rfl⟩

/-- Witness for `C6_guard_timeout`: timeout 90 is rejected locally and
timeout 60 is accepted. -/
theorem C6_guard_timeout_witness :
    setGuard 0 { enable := none, timeoutSec := some 90,
                 setCurrentAsGuard := none, goToGuardNow := none } =
      .error "Reolink guard timeout currently supports only 60 seconds" ∧
    ∃ p, setGuard 0 { enable := none, timeoutSec := some 60,
                      setCurrentAsGuard := none, goToGuardNow := none } =
      .ok p ∧ p.timeout = 60 :=
  ⟨C6_guard_timeout.1 0 90 _ rfl (by decide),
   C6_guard_timeout.2 0 _ (Or.inl rfl)⟩

/-- C7: `setMdZone` rejects a Grid Area whose bit-string length
differs from `width * height` with a local error and an empty request
list (no network call, whatever the pre-fetch would have answered);
`setAiZone` likewise rejects such an area before any request is built,
and additionally rejects any AI type outside the fixed enumeration
`people`/`vehicle`/`dog_cat`/`face`. -/
theorem C7_grid_validation :
    (∀ (fetch : MdFetch) (channel : Int) (a : GridArea),
      a.bits.length ≠ a.width * a.height →
      setMdZone fetch channel a =
        ([], .error (.localErr "Grid area bitstring size mismatch"))) ∧
    (∀ (channel : Int) (t : String) (a : GridArea),
      a.bits.length ≠ a.width * a.height →
      ∃ msg, setAiZone channel t a = .error msg) ∧
    (∀ (channel : Int) (t : String) (a : GridArea),
      t ∉ supportedAiTypes →
      setAiZone channel t a = .error ("Unsupported AI type: " ++ t)) := by
  refine ⟨?_, ?_, ?_⟩
  · intro fetch channel a hlen
    simp [setMdZone, buildScope, hlen]
  · intro channel t a hlen
    by_cases ht : t ∈ supportedAiTypes
    · exact ⟨"Invalid AI zone bitstring length", by simp [setAiZone, ht, hlen]⟩
    · exact ⟨"Unsupported AI type: " ++ t, by simp [setAiZone, ht]⟩
  · intro channel t a ht
    simp [setAiZone, ht]

/-- Witness for `C7_grid_validation` at the spec's example
`{width: 4, height: 2, bits: "1010"}` and at an unknown AI type. -/
theorem C7_grid_validation_witness :
    setMdZone .otherErr 0 ⟨4, 2, "1010"⟩ =
      ([], .error (.localErr "Grid area bitstring size mismatch")) ∧
    (∃ msg, setAiZone 0 "people" ⟨4, 2, "1010"⟩ = .error msg) ∧
    setAiZone 0 "bird" ⟨2, 2, "1010"⟩ =
      .error ("Unsupported AI type: " ++ "bird") :=
  ⟨C7_grid_validation.1 .otherErr 0 ⟨4, 2, "1010"⟩ (by decide),
   C7_grid_validation.2.1 0 "people" ⟨4, 2, "1010"⟩ (by decide),
   C7_grid_validation.2.2 0 "bird" ⟨2, 2, "1010"⟩ (by decide)⟩

/-- A `PtzGuard` payload that is present but carries no fields. -/
def emptyGuardWire : GuardWire :=
  { benable := none, bexistPos := none, bExistPosAlt := none,
    timeout := none, channel := none }

/-- C8 counterexample: when the device response carries a `PtzGuard`
object whose fields are all missing, `getPtzGuard` does not default —
the returned configuration has neither `timeout = 60` nor
`benable = 0`; the defaults apply only when the `PtzGuard` payload is
absent altogether. -/
theorem C8_counterexample :
    (getPtzGuard (some emptyGuardWire) 0).timeout ≠ some 60 ∧
    (getPtzGuard (some emptyGuardWire) 0).benable ≠ some 0 := by
  exact ⟨by decide, by decide⟩

/-- C8 (amended): `getPtzGuard` returns the canonical default
configuration `{benable: 0, timeout: 60, channel}` exactly when the
device response carries no `PtzGuard` payload at all; when a payload
is present its fields are copied through unchanged (only `channel` is
defaulted), and the `PresetsModule.getGuard` variant defaults a
missing `timeout` to 0, never to 60. -/
theorem C8_guard_defaults :
    (∀ channel : Int, getPtzGuard none channel =
      { benable := some 0, bexistPos := none,
        timeout := some 60, channel := some channel }) ∧
    (∀ (g : GuardWire) (channel : Int), getPtzGuard (some g) channel =
      { benable := g.benable, bexistPos := g.bexistPos,
        timeout := g.timeout, channel := some (g.channel.getD channel) }) ∧
    (∀ g : GuardWire, (presetsGetGuard g).2.2 = g.timeout.getD 0) := by
  exact ⟨fun _ => rfl, fun _ _ => rfl, fun _ => rfl⟩

/-! ### Theorems about `close` and `logout` -/

/-- Stopping an emitter always leaves it not running. -/
theorem Emitter.stop_isRunning (e : Emitter) : e.stop.isRunning = false := by
  unfold Emitter.stop
  by_cases h : e.isRunning <;> simp [h]

/-- Reading back an element of `stopAll`: position `j` of a heap whose
head carries index `base` holds the stopped emitter whenever
`base + j` is registered. -/
theorem stopAll_getD (reg : List Nat) (d : Emitter) :
    ∀ (l : List Emitter) (base j : Nat), base + j ∈ reg → j < l.length →
      (stopAll reg base l).getD j d = (l.getD j d).stop := by
  intro l
  induction l with
  | nil => intro base j _ hj; simp at hj
  | cons e es ih =>
    intro base j hmem hj
    cases j with
    | zero =>
      have hb : base ∈ reg := by simpa using hmem
      simp [stopAll, hb]
    | succ k =>
      have hmem' : (base + 1) + k ∈ reg := by
        have : base + (k + 1) = (base + 1) + k := by omega
        simpa [this] using hmem
      have hk : k < es.length := by simpa using hj
      simpa [stopAll] using ih (base + 1) k hmem' hk

/-- Shape of a first `close` on an open client: mark closed, stop the
registered emitters, clear the set, and invoke `logout` once — which
immediately returns because the closed flag is already set. -/
theorem close_eq_of_notClosed (net : Net) (st : CState)
    (h : st.closed = false) :
    close net st =
      { st with closed := true,
                emHeap := stopAll st.registered 0 st.emHeap,
                registered := [],
                logoutCalls := st.logoutCalls + 1 } := by
  simp [close, logout, h]

/-- C9: `close` is idempotent. The first call on an open client marks
it closed, stops every registered emitter and clears the emitter set,
and invokes the logout step exactly once; a second `close` in sequence
performs none of that again and leaves the state unchanged (the model
is a total function, so neither call raises). -/
theorem C9_close_idempotent (net : Net) (st : CState)
    (h : st.closed = false) :
    (close net st).closed = true ∧
    (close net st).registered = [] ∧
    (∀ i ∈ st.registered, ∀ d : Emitter, i < st.emHeap.length →
      ((close net st).emHeap.getD i d).isRunning = false) ∧
    (close net st).logoutCalls = st.logoutCalls + 1 ∧
    close net (close net st) = close net st := by
  rw [close_eq_of_notClosed net st h]
  refine ⟨rfl, rfl, ?_, rfl, ?_⟩
  · intro i hi d hlen
    have := stopAll_getD st.registered d st.emHeap 0 i (by simpa using hi) hlen
    simp only [this]
    exact Emitter.stop_isRunning _
  · simp [close]

/-- Concrete open client with one running registered emitter, used by
the witnesses of the `close` theorems. -/
def c9st : CState :=
  { mode := .long, username := "admin", password := "pw",
    token := "tokenA", tokenLeaseTime := 3600, tokenExpiryTime := 900000,
    closed := false,
    emHeap := [{ isRunning := true, hasTimer := true, listeners := 2 }],
    registered := [0],
    sends := [], sendsMany := [], logins := 0, logoutCalls := 0 }

/-- Oracle whose single-call replies always succeed, used by the
`close` witnesses (the logout request is never reached). -/
def c9net : Net :=
  { call := fun _ => .ok (.success "ok"),
    callMany := fun _ => .ok [],
    loginCall := fun _ => .ok (.success ⟨"tokenB", some 3600⟩) }

/-- Witness for `C9_close_idempotent` at a concrete client. -/
theorem C9_close_idempotent_witness :
    (close c9net c9st).closed = true ∧
    (close c9net c9st).registered = [] ∧
    (∀ i ∈ c9st.registered, ∀ d : Emitter, i < c9st.emHeap.length →
      ((close c9net c9st).emHeap.getD i d).isRunning = false) ∧
    (close c9net c9st).logoutCalls = c9st.logoutCalls + 1 ∧
    close c9net (close c9net c9st) = close c9net c9st :=
  C9_close_idempotent c9net c9st rfl

/-- C10: because `close` sets the closed flag before invoking
`logout`, and `logout` returns immediately on a closed client,
closing a client that holds a valid (non-sentinel) token sends no
`Logout` request at all and leaves the stored token and expiry
unchanged — `getToken()` still returns the old token afterwards. -/
theorem C10_close_keeps_token (net : Net) (st : CState)
    (h : st.closed = false) (_h1 : st.token ≠ "null") (_h2 : st.token ≠ "") :
    (close net st).sends = st.sends ∧
    (close net st).token = st.token ∧
    (close net st).tokenExpiryTime = st.tokenExpiryTime := by
  rw [close_eq_of_notClosed net st h]
  exact ⟨rfl, rfl, rfl⟩

/-- Witness for `C10_close_keeps_token` at a concrete client holding
the token `"tokenA"`. -/
theorem C10_close_keeps_token_witness :
    (close c9net c9st).sends = c9st.sends ∧
    (close c9net c9st).token = c9st.token ∧
    (close c9net c9st).tokenExpiryTime = c9st.tokenExpiryTime :=
  C10_close_keeps_token c9net c9st rfl (by decide) (by decide)

/-! ### Theorems about the retry wrapper -/

/-- Lift of a single-call outcome into the error union, as
`apiInternal` surfaces it. -/
def liftCall (r : Except ReolinkHttpError RespVal) : Except CallErr RespVal :=
  match r with
  | .ok v => .ok v
  | .error e => .error (.http e)

/-- C3: in per-request (short) mode, for every command, params and
action, `withToken` sends the request immediately via `apiInternal`
with embedded username/password credentials: it never invokes
`login()`, and neither reads nor mutates the stored token, lease or
expiry fields — the final state differs from the initial one only by
the ghost request log, and the call's result is unchanged under any
change of the token fields. -/
theorem C3_short_mode_isolation (net : Net) (now : Int) (cmd : String)
    (action : Nat) (param : Param) (st : CState)
    (hm : st.mode = .short) (hc : st.closed = false) :
    withToken net now cmd action param st =
      (liftCall (callOutcome (net.call st.sends.length) cmd),
       { st with sends := st.sends ++
           [⟨cmd, action, param, .creds st.username st.password⟩] }) ∧
    (∀ t lt ex,
      (withToken net now cmd action param
        { st with token := t, tokenLeaseTime := lt,
                  tokenExpiryTime := ex }).1 =
      (withToken net now cmd action param st).1) := by
  constructor
  · cases hcall : callOutcome (net.call st.sends.length) cmd <;>
      simp [withToken, withTokenGo, apiInternal, liftCall, hm, hc, hcall]
  · intro t lt ex
    cases hcall : callOutcome (net.call st.sends.length) cmd <;>
      simp [withToken, withTokenGo, apiInternal, liftCall, hm, hc, hcall]

/-- Concrete short-mode client for the C3 witness. -/
def c3st : CState :=
  { mode := .short, username := "admin", password := "pw",
    token := "stale", tokenLeaseTime := 3600, tokenExpiryTime := 42,
    closed := false, emHeap := [], registered := [],
    sends := [], sendsMany := [], logins := 0, logoutCalls := 0 }

/-- Oracle answering every single call with a success, for the C3
witness. -/
def c3net : Net :=
  { call := fun _ => .ok (.success "v"),
    callMany := fun _ => .ok [],
    loginCall := fun _ => .fail 500 }

/-- Witness for `C3_short_mode_isolation` at a concrete client. -/
theorem C3_short_mode_isolation_witness :
    withToken c3net 0 "GetDevInfo" 0 [] c3st =
      (liftCall (callOutcome (c3net.call c3st.sends.length) "GetDevInfo"),
       { c3st with sends := c3st.sends ++
           [⟨"GetDevInfo", 0, [], .creds c3st.username c3st.password⟩] }) ∧
    (∀ t lt ex,
      (withToken c3net 0 "GetDevInfo" 0 []
        { c3st with token := t, tokenLeaseTime := lt,
                    tokenExpiryTime := ex }).1 =
      (withToken c3net 0 "GetDevInfo" 0 [] c3st).1) :=
  C3_short_mode_isolation c3net 0 "GetDevInfo" 0 [] c3st rfl rfl

/-- The `"null"` sentinel always counts as needing a refresh. -/
theorem needsRefresh_null (e now : Int) : needsRefresh "null" e now :=
  Or.inl rfl

/-- C1: in token-session (long) mode, when every single-call reply has
the auth-failure shape (HTTP 401, vendor `rspCode` -1, or detail
mentioning token/session) and logins succeed, the wrapper sends the
request exactly twice — the original attempt and exactly one resend
after a forced relogin — and surfaces the second failure to the
caller; the login counter ends at 2 when the initial token already
needed a proactive refresh, else at 1 (the single forced relogin). -/
theorem C1_retry_cap (net : Net) (now : Int) (cmd : String) (action : Nat)
    (param : Param) (st : CState)
    (hm : st.mode = .long) (hc : st.closed = false)
    (hs : st.sends = []) (hl : st.logins = 0)
    (H1 : ∀ k, ∃ e, callOutcome (net.call k) cmd = .error e ∧
                    isTokenError e = true)
    (H2 : ∀ k, ∃ tv, net.loginCall k = .ok (.success tv)) :
    ∃ e a1 a2,
      callOutcome (net.call 1) cmd = .error e ∧
      (withToken net now cmd action param st).1 = .error (.http e) ∧
      (withToken net now cmd action param st).2.sends =
        [⟨cmd, action, param, a1⟩, ⟨cmd, action, param, a2⟩] ∧
      (withToken net now cmd action param st).2.logins =
        (if needsRefresh st.token st.tokenExpiryTime now then 2 else 1) := by
  obtain ⟨e0, he0, ht0⟩ := H1 0
  obtain ⟨e1, he1, ht1⟩ := H1 1
  obtain ⟨tv0, hlc0⟩ := H2 0
  obtain ⟨tv1, hlc1⟩ := H2 1
  by_cases hr : needsRefresh st.token st.tokenExpiryTime now
  · refine ⟨e1, .tok tv0.name, .tok tv1.name, he1, ?_⟩
    simp [withToken, withTokenGo, ensureToken, login, apiInternal,
      needsRefresh_null, hm, hc, hs, hl, hr, he0, he1, ht0, ht1, hlc0, hlc1]
  · refine ⟨e1, .tok st.token, .tok tv0.name, he1, ?_⟩
    simp [withToken, withTokenGo, ensureToken, login, apiInternal,
      needsRefresh_null, hm, hc, hs, hl, hr, he0, he1, ht0, ht1, hlc0, hlc1]

/-- Oracle for the C1 witness: every single call answers with the
vendor invalid-token envelope, every login succeeds. -/
def c1net : Net :=
  { call := fun _ => .ok (.failure 1 (-1) "please check token"),
    callMany := fun _ => .fail 500,
    loginCall := fun _ => .ok (.success ⟨"tokenB", some 3600⟩) }

/-- Concrete long-mode client holding a fresh token. -/
def c1st : CState :=
  { mode := .long, username := "admin", password := "pw",
    token := "tokenA", tokenLeaseTime := 3600,
    tokenExpiryTime := 1000000000, closed := false,
    emHeap := [], registered := [],
    sends := [], sendsMany := [], logins := 0, logoutCalls := 0 }

/-- Witness for `C1_retry_cap` at a concrete client and oracle. -/
theorem C1_retry_cap_witness :
    ∃ e a1 a2,
      callOutcome (c1net.call 1) "GetDevInfo" = .error e ∧
      (withToken c1net 0 "GetDevInfo" 0 [] c1st).1 = .error (.http e) ∧
      (withToken c1net 0 "GetDevInfo" 0 [] c1st).2.sends =
        [⟨"GetDevInfo", 0, [], a1⟩, ⟨"GetDevInfo", 0, [], a2⟩] ∧
      (withToken c1net 0 "GetDevInfo" 0 [] c1st).2.logins =
        (if needsRefresh c1st.token c1st.tokenExpiryTime 0 then 2 else 1) :=
  C1_retry_cap c1net 0 "GetDevInfo" 0 [] c1st rfl rfl rfl rfl
    (fun _ => ⟨⟨1, -1, "please check token", some "GetDevInfo"⟩, rfl,
      by decide⟩)
    (fun _ => ⟨⟨"tokenB", some 3600⟩, rfl⟩)

/-- Batch of two raw requests for the C2 theorems. -/
def c2raws : List RawEnv :=
  [{ cmd := "GetDevInfo", action := some 0, param := some [] },
   { cmd := "GetAbility", action := some 0, param := some [] }]

/-- Oracle for the C2 counterexample: the batched HTTP round trip
succeeds at the transport level, but its first response envelope is a
vendor auth failure (`rspCode` -1, detail mentioning the token). -/
def c2net : Net :=
  { call := fun _ => .fail 500,
    callMany := fun _ =>
      .ok [.failure 1 (-1) "please check token", .success "ok"],
    loginCall := fun _ => .ok (.success ⟨"tokenB", some 3600⟩) }

/-- Concrete long-mode client with a fresh token for the C2 runs. -/
def c2st : CState :=
  { mode := .long, username := "admin", password := "pw",
    token := "tokenA", tokenLeaseTime := 3600,
    tokenExpiryTime := 1000000000, closed := false,
    emHeap := [], registered := [],
    sends := [], sendsMany := [], logins := 0, logoutCalls := 0 }

/-- C2 counterexample: a batch whose response carries an auth failure
in the same shape as single calls (vendor `rspCode` -1, detail
mentioning the token) is NOT resent — the batch goes out exactly once,
no relogin happens, and the per-envelope error is surfaced directly:
the batched path retries only on transport-level (HTTP) failures,
unlike the single-call path. -/
theorem C2_counterexample :
    isTokenError ⟨1, -1, "please check token", some "GetDevInfo"⟩ = true ∧
    (requestMany c2net 0 c2raws c2st).2.sendsMany.length = 1 ∧
    (requestMany c2net 0 c2raws c2st).2.logins = 0 ∧
    (requestMany c2net 0 c2raws c2st).1 =
      .error (.http ⟨1, -1, "please check token", some "GetDevInfo"⟩) := by
  refine ⟨by decide, ?_, ?_, ?_⟩ <;> rfl

/-- C2 (amended): the batched path resends the entire batch exactly
once only when the HTTP round trip itself fails with an auth-shaped
transport error (e.g. status 401): under such failures on every
attempt, with logins succeeding, the whole batch of N envelopes is
sent exactly twice — both times in full — one relogin precedes the
resend, and the second transport failure is surfaced. Envelope-level
auth failures inside an HTTP-ok batch response never trigger a resend
(see the counterexample). -/
theorem C2_batch_retry (net : Net) (now : Int) (reqs : List Envelope)
    (st : CState)
    (hm : st.mode = .long) (hc : st.closed = false)
    (hne : reqs ≠ [])
    (hb : st.sendsMany = []) (hl : st.logins = 0)
    (H1 : ∀ k, ∃ e,
      callManyOutcome (net.callMany k)
        ((reqs.head?.map (fun r => r.cmd)).getD "Batch") = .error e ∧
      isTokenError e = true)
    (H2 : ∀ k, ∃ tv, net.loginCall k = .ok (.success tv)) :
    ∃ e a1 a2,
      callManyOutcome (net.callMany 1)
        ((reqs.head?.map (fun r => r.cmd)).getD "Batch") = .error e ∧
      (withTokenMany net now reqs st).1 = .error (.http e) ∧
      (withTokenMany net now reqs st).2.sendsMany =
        [⟨reqs, a1⟩, ⟨reqs, a2⟩] ∧
      (withTokenMany net now reqs st).2.logins =
        (if needsRefresh st.token st.tokenExpiryTime now then 2 else 1) := by
  obtain ⟨e0, he0, ht0⟩ := H1 0
  obtain ⟨e1, he1, ht1⟩ := H1 1
  obtain ⟨tv0, hlc0⟩ := H2 0
  obtain ⟨tv1, hlc1⟩ := H2 1
  have hemp : reqs.isEmpty = false := by
    cases reqs with
    | nil => exact absurd rfl hne
    | cons a l => rfl
  by_cases hr : needsRefresh st.token st.tokenExpiryTime now
  · refine ⟨e1, .tok tv0.name, .tok tv1.name, he1, ?_⟩
    simp [withTokenMany, withTokenManyGo, ensureToken, login,
      apiInternalMany, needsRefresh_null, hemp,
      hm, hc, hb, hl, hr, he0, he1, ht0, ht1, hlc0, hlc1]
  · refine ⟨e1, .tok st.token, .tok tv0.name, he1, ?_⟩
    simp [withTokenMany, withTokenManyGo, ensureToken, login,
      apiInternalMany, needsRefresh_null, hemp,
      hm, hc, hb, hl, hr, he0, he1, ht0, ht1, hlc0, hlc1]

/-- Oracle for the C2 witness: every batched round trip fails with
HTTP 401, every login succeeds. -/
def c2netHttp : Net :=
  { call := fun _ => .fail 500,
    callMany := fun _ => .fail 401,
    loginCall := fun _ => .ok (.success ⟨"tokenB", some 3600⟩) }

/-- The normalized form of the C2 batch. -/
def c2envs : List Envelope := c2raws.map normEnv

/-- Witness for `C2_batch_retry` at a concrete batch of two envelopes
under persistent HTTP 401 replies. -/
theorem C2_batch_retry_witness :
    ∃ e a1 a2,
      callManyOutcome (c2netHttp.callMany 1)
        ((c2envs.head?.map (fun r => r.cmd)).getD "Batch") = .error e ∧
      (withTokenMany c2netHttp 0 c2envs c2st).1 = .error (.http e) ∧
      (withTokenMany c2netHttp 0 c2envs c2st).2.sendsMany =
        [⟨c2envs, a1⟩, ⟨c2envs, a2⟩] ∧
      (withTokenMany c2netHttp 0 c2envs c2st).2.logins =
        (if needsRefresh c2st.token c2st.tokenExpiryTime 0 then 2 else 1) :=
  C2_batch_retry c2netHttp 0 c2envs c2st rfl rfl (by decide) rfl rfl
    (fun _ => ⟨⟨401, 401, "HTTP error! status: " ++ toString (401 : Int),
      some "GetDevInfo"⟩, rfl, by decide⟩)
    (fun _ => ⟨⟨"tokenB", some 3600⟩, rfl⟩)

end Reolink

